import Mathlib

/-!
Verification development for the dental-practice budgeting backend.

The definitions below are a shallow embedding of the Python sources:
- `src/backend/app/routers/reports.py` (variance and P&L reports),
- `src/backend/app/routers/practices.py` (practice CRUD),
- `src/backend/app/routers/budget.py` (budget-line creation),
- `src/backend/scripts/seed_data.py` (seeding).

Monetary amounts (Python `Decimal`, SQL `Numeric(15, 2)`) are embedded as
exact rationals `Rat`; the relational store is a record of lists, with
SQLAlchemy `filter(...).first()` becoming `List.find?`, `filter(...).all()`
becoming `List.filter`, `offset/limit` becoming `drop/take`, and SQL
`GROUP BY`/`SUM` becoming an explicit grouping function. `HTTPException`
becomes the error side of `Except`.
-/

namespace DentalBudget

/-- Calendar date, mirroring Python `datetime.date`: chronological order is
lexicographic on (year, month, day). -/
structure MDate where
  year : Nat
  month : Nat
  day : Nat
deriving DecidableEq, Repr

/-- Two-digit zero padding, as in Python ISO date formatting. -/
def pad2 (n : Nat) : String :=
  if n < 10 then "0" ++ toString n else toString n

/-- ISO rendering of a date, mirroring Python `str(date)` used inside
f-strings ("YYYY-MM-DD"). -/
def MDate.iso (d : MDate) : String :=
  toString d.year ++ "-" ++ pad2 d.month ++ "-" ++ pad2 d.day

/-- Chronological comparison of dates (Python `date` ordering). -/
def MDate.le (a b : MDate) : Bool :=
  if a.year ≠ b.year then decide (a.year < b.year)
  else if a.month ≠ b.month then decide (a.month < b.month)
  else decide (a.day ≤ b.day)

/-- Monetary amounts: Python `Decimal` embedded as exact rationals. -/
abbrev Money := Rat

/-- A row of the `practices` table (`app/models.py`, class `Practice`). -/
structure Practice where
  id : Nat
  name : String
  location : String
  status : String
deriving DecidableEq, Repr

/-- A budget-period row as the reporting code accesses it
(`reports.py` reads `id`, `start_date`, `end_date`; the variance report
also serializes `fiscal_year_id`, `period_month`, `period_date`, `status`). -/
structure BudgetPeriod where
  id : Nat
  fiscal_year_id : Nat
  period_month : Nat
  period_date : MDate
  status : String
  start_date : MDate
  end_date : MDate
deriving DecidableEq, Repr

/-- A budget-line row as `reports.py:get_variance_report` accesses it
(fields `id`, `practice_id`, `budget_period_id`, `account_category_id`,
`amount`, `notes`). -/
structure BudgetLine where
  id : Nat
  practice_id : Nat
  budget_period_id : Nat
  account_category_id : Nat
  amount : Money
  notes : Option String
deriving DecidableEq, Repr

/-- An actuals row as `reports.py` accesses it (fields `practice_id`,
`budget_period_id`, `account_category_id`, `amount`). -/
structure Actual where
  id : Nat
  practice_id : Nat
  budget_period_id : Nat
  account_category_id : Nat
  amount : Money
deriving DecidableEq, Repr

/-- An account-category row (`app/models.py`, class `AccountCategory`):
`category_type` is one of "revenue", "expense", "metric". -/
structure AccountCategory where
  id : Nat
  code : String
  name : String
  category_type : String
deriving DecidableEq, Repr

/-- The relational store as the reporting endpoints read it. -/
structure DB where
  practices : List Practice
  periods : List BudgetPeriod
  budget_lines : List BudgetLine
  actuals : List Actual
  categories : List AccountCategory
deriving Repr

/-- A FastAPI `HTTPException`: status code and human-readable detail. -/
structure HTTPError where
  status_code : Nat
  detail : String
deriving DecidableEq, Repr

/-- A line item of the variance report, carrying the fields
`get_variance_report` copies from each budget line. -/
structure LineItem where
  id : Nat
  practice_id : Nat
  budget_period_id : Nat
  account_category_id : Nat
  amount : Money
  notes : Option String
deriving DecidableEq, Repr

/-- The line item built from a budget line (`reports.py` lines 90-99). -/
def BudgetLine.toItem (bl : BudgetLine) : LineItem :=
  ⟨bl.id, bl.practice_id, bl.budget_period_id, bl.account_category_id, bl.amount, bl.notes⟩

/-- The variance report payload (`schemas.VarianceReport`). -/
structure VarianceReport where
  practice : Practice
  period : BudgetPeriod
  total_budget : Money
  total_actual : Money
  total_variance : Money
  variance_percentage : Money
  line_items : List LineItem
deriving DecidableEq, Repr

/-- The P&L report payload (`schemas.PLReport`); each category entry is
(id, name, category_type, summed amount). -/
structure PLReport where
  practice : Practice
  start_date : MDate
  end_date : MDate
  total_revenue : Money
  total_expenses : Money
  net_income : Money
  categories : List (Nat × String × String × Money)
deriving DecidableEq, Repr

/-- Python dict insertion: a later binding for the same key overwrites the
earlier one in place. -/
def dinsert (k : Nat) (v : Money) : List (Nat × Money) → List (Nat × Money)
  | [] => [(k, v)]
  | (k₀, v₀) :: rest => if k₀ = k then (k, v) :: rest else (k₀, v₀) :: dinsert k v rest

/-- Python `dict.get(key, default)`. -/
def dget (m : List (Nat × Money)) (k : Nat) (dflt : Money) : Money :=
  match m.find? (fun kv => kv.1 == k) with
  | some kv => kv.2
  | none => dflt

/-- The actuals lookup of `reports.py` lines 72-76: a dict comprehension
mapping `account_category_id` to `amount`, built in fetch order. -/
def build_lookup (actuals : List Actual) : List (Nat × Money) :=
  actuals.foldl (fun m a => dinsert a.account_category_id a.amount m) []

/-- The budget lines fetched for a practice and period
(`reports.py` lines 59-64). -/
def fetch_lines (db : DB) (practice_id period_id : Nat) : List BudgetLine :=
  db.budget_lines.filter
    (fun bl => bl.practice_id == practice_id && bl.budget_period_id == period_id)

/-- The actuals fetched for a practice and period (`reports.py` lines 67-70). -/
def fetch_actuals (db : DB) (practice_id period_id : Nat) : List Actual :=
  db.actuals.filter
    (fun a => a.practice_id == practice_id && a.budget_period_id == period_id)

/-- The accumulation loop of `reports.py` lines 79-99: running totals of
budget and actual amounts, and the line items appended in fetch order. -/
def variance_fold (lookup : List (Nat × Money)) (lines : List BudgetLine) :
    Money × Money × List LineItem :=
  lines.foldl
    (fun acc bl =>
      (acc.1 + bl.amount,
       acc.2.1 + dget lookup bl.account_category_id 0,
       acc.2.2 ++ [bl.toItem]))
    (0, 0, [])

/-- Embedding of `reports.py:get_variance_report` (lines 29-112). -/
def get_variance_report (db : DB) (practice_id period_id : Nat) :
    Except HTTPError VarianceReport :=
  match db.practices.find? (fun p => p.id == practice_id) with
  | none => .error ⟨404, "Practice with id " ++ toString practice_id ++ " not found"⟩
  | some practice =>
    match db.periods.find? (fun p => p.id == period_id) with
    | none => .error ⟨404, "Budget period with id " ++ toString period_id ++ " not found"⟩
    | some period =>
      let budget_lines := fetch_lines db practice_id period_id
      let actuals := fetch_actuals db practice_id period_id
      let lookup := build_lookup actuals
      let t := variance_fold lookup budget_lines
      let total_variance := t.2.1 - t.1
      let variance_percentage : Money :=
        if t.1 ≠ 0 then total_variance / t.1 * 100 else 0
      .ok ⟨practice, period, t.1, t.2.1, total_variance, variance_percentage, t.2.2⟩

/-- SQL GROUP BY with SUM: one entry per distinct key (first-occurrence
order), whose value is the sum of all amounts carrying that key. -/
def group_sums {κ : Type} [BEq κ] : List (κ × Money) → List (κ × Money)
  | [] => []
  | (k, v) :: rest =>
    (k, v + ((rest.filter (fun r => r.1 == k)).map (fun r => r.2)).sum) ::
      group_sums (rest.filter (fun r => !(r.1 == k)))
termination_by l => l.length
decreasing_by
  simp only [List.length_cons]
  exact Nat.lt_succ_of_le (List.length_filter_le _ _)

/-- The budget periods matching a P&L date range (`reports.py` lines 135-138):
periods whose window [start_date, end_date] falls within the request range. -/
def pl_periods (db : DB) (start_date end_date : MDate) : List BudgetPeriod :=
  db.periods.filter
    (fun p => MDate.le start_date p.start_date && MDate.le p.end_date end_date)

/-- The ids of the matching budget periods (`reports.py` line 146). -/
def pl_period_ids (db : DB) (start_date end_date : MDate) : List Nat :=
  (pl_periods db start_date end_date).map (fun p => p.id)

/-- The joined (category_type, amount) rows behind the P&L type aggregation
(`reports.py` lines 149-159): actuals for the practice restricted to the
matching periods, inner-joined with their account category. -/
def pl_rows (db : DB) (practice_id : Nat) (period_ids : List Nat) :
    List (String × Money) :=
  db.actuals.filterMap (fun a =>
    if a.practice_id == practice_id && period_ids.contains a.budget_period_id then
      (db.categories.find? (fun c => c.id == a.account_category_id)).map
        (fun c => (c.category_type, a.amount))
    else none)

/-- The joined rows behind the per-category breakdown (`reports.py`
lines 174-188), keyed by (id, name, category_type). -/
def pl_cat_rows (db : DB) (practice_id : Nat) (period_ids : List Nat) :
    List ((Nat × String × String) × Money) :=
  db.actuals.filterMap (fun a =>
    if a.practice_id == practice_id && period_ids.contains a.budget_period_id then
      (db.categories.find? (fun c => c.id == a.account_category_id)).map
        (fun c => ((c.id, c.name, c.category_type), a.amount))
    else none)

/-- The totals loop of `reports.py` lines 165-169: revenue groups accumulate
into total_revenue, expense groups into total_expenses, anything else
(such as "metric") into neither. -/
def pl_totals (groups : List (String × Money)) : Money × Money :=
  groups.foldl
    (fun acc g =>
      if g.1 == "revenue" then (acc.1 + g.2, acc.2)
      else if g.1 == "expense" then (acc.1, acc.2 + g.2)
      else acc)
    (0, 0)

/-- Embedding of `reports.py:get_pl_report` (lines 115-203). -/
def get_pl_report (db : DB) (practice_id : Nat) (start_date end_date : MDate) :
    Except HTTPError PLReport :=
  match db.practices.find? (fun p => p.id == practice_id) with
  | none => .error ⟨404, "Practice with id " ++ toString practice_id ++ " not found"⟩
  | some practice =>
    if (pl_periods db start_date end_date).isEmpty then
      .error ⟨404, "No budget periods found between " ++ start_date.iso ++
        " and " ++ end_date.iso⟩
    else
      let period_ids := pl_period_ids db start_date end_date
      let summary := group_sums (pl_rows db practice_id period_ids)
      let t := pl_totals summary
      let cats := (group_sums (pl_cat_rows db practice_id period_ids)).map
        (fun g => (g.1.1, g.1.2.1, g.1.2.2, g.2))
      .ok ⟨practice, start_date, end_date, t.1, t.2, t.1 - t.2, cats⟩

/-- Embedding of `practices.py:get_practices` (lines 21-29): offset/limit
pagination over the stored practices in listing order. -/
def get_practices (store : List Practice) (skip limit : Nat) : List Practice :=
  (store.drop skip).take limit

/-- Default `skip` of the listing route. -/
def default_skip : Nat := 0

/-- Default `limit` of the listing route. -/
def default_limit : Nat := 100

/-- A create-practice request (`schemas.PracticeCreate`). -/
structure PracticeCreate where
  name : String
  location : String
  status : String
deriving DecidableEq, Repr

/-- Embedding of `practices.py:create_practice` (lines 51-73): duplicate
names are rejected with a 400 conflict before any insert; otherwise the
practice is appended to the store (the store assigns the fresh id).
Returns the response together with the store after the call. -/
def create_practice (store : List Practice) (req : PracticeCreate) :
    Except HTTPError Practice × List Practice :=
  match store.find? (fun p => p.name == req.name) with
  | some _ =>
    (.error ⟨400, "Practice with name \x27" ++ req.name ++ "\x27 already exists"⟩, store)
  | none =>
    let newP : Practice := ⟨store.length + 1, req.name, req.location, req.status⟩
    (.ok newP, store ++ [newP])

/-- A create-budget-line request (`budget.py`, class `BudgetLineCreate`). -/
structure BudgetLineCreate where
  practice_id : Nat
  fiscal_year_id : Nat
  category_id : Nat
  month : Nat
  budget_amount : Money
  actual_amount : Money
  notes : Option String
deriving DecidableEq, Repr

/-- A budget-line response (`budget.py`, class `BudgetLineResponse`). -/
structure BudgetLineResponse where
  id : Nat
  practice_id : Nat
  fiscal_year_id : Nat
  category_id : Nat
  month : Nat
  budget_amount : Money
  actual_amount : Money
  variance : Money
  notes : Option String
deriving DecidableEq, Repr

/-- Embedding of `budget.py:create_budget_line` (lines 69-82): the response
row stores variance computed as actual_amount - budget_amount. -/
def create_budget_line (line : BudgetLineCreate) : BudgetLineResponse :=
  ⟨1, line.practice_id, line.fiscal_year_id, line.category_id, line.month,
   line.budget_amount, line.actual_amount,
   line.actual_amount - line.budget_amount, line.notes⟩

/-- A budget-line row as `seed_data.py:seed_sample_budget_data` constructs it
(lines 167-175). -/
structure SeedBudgetLine where
  practice_id : Nat
  budget_period_id : Nat
  category_id : Nat
  month : Nat
  budget_amount : Money
  actual_amount : Money
  variance : Money
deriving DecidableEq, Repr

/-- The budget line stored by `seed_data.py:seed_sample_budget_data` for each
of the first five categories: budget_amount 10000.00, actual_amount 9500.00,
and a hard-coded variance of 500.00 (`seed_data.py` lines 167-175). -/
def seed_budget_line (practice_id budget_period_id category_id : Nat) : SeedBudgetLine :=
  ⟨practice_id, budget_period_id, category_id, 1, 10000, 9500, 500⟩

/-- Concrete practice for witness scenarios (from the seed data and the
spec's worked scenario). -/
def samplePractice : Practice := ⟨1, "Austin PC", "TX001", "active"⟩

/-- Concrete budget period for witness scenarios: January 2026. -/
def samplePeriod : BudgetPeriod :=
  ⟨1, 1, 1, ⟨2026, 1, 1⟩, "active", ⟨2026, 1, 1⟩, ⟨2026, 1, 31⟩⟩

/-- Concrete store realizing the spec's worked scenario: one practice, one
period, a budget line of 50000.00 for category 7 and an actual of 48500.00
for the same category. -/
def sampleDB : DB :=
  ⟨[samplePractice], [samplePeriod],
   [⟨1, 1, 1, 7, 50000, none⟩],
   [⟨1, 1, 1, 7, 48500⟩],
   [⟨7, "400000", "Revenue - Diagnostic", "revenue"⟩]⟩

/-- The variance report the scenario store produces. -/
def sampleReport : VarianceReport :=
  ⟨samplePractice, samplePeriod, 50000, 48500, -1500, -3, [⟨1, 1, 1, 7, 50000, none⟩]⟩

/-- The P&L report the scenario store produces over all of 2026. -/
def samplePL : PLReport :=
  ⟨samplePractice, ⟨2026, 1, 1⟩, ⟨2026, 12, 31⟩, 48500, 0, 48500,
   [(7, "Revenue - Diagnostic", "revenue", 48500)]⟩

/-- Store with a practice, a period and an actual but no budget line at all. -/
def emptyLinesDB : DB :=
  ⟨[samplePractice], [samplePeriod], [],
   [⟨1, 1, 1, 7, 48500⟩],
   [⟨7, "400000", "Revenue - Diagnostic", "revenue"⟩]⟩

/-- The degenerate variance report of a store with no budget lines. -/
def emptyReport : VarianceReport :=
  ⟨samplePractice, samplePeriod, 0, 0, 0, 0, []⟩

/-- Concrete create-practice request for the idempotence witness. -/
def sampleReq : PracticeCreate := ⟨"Red Oak PC", "TX005", "active"⟩

/-! Helper lemmas about the embedded operations. -/

/-- Summing a pointwise difference splits into a difference of sums. -/
theorem sum_map_sub {α : Type} (l : List α) (f g : α → Money) :
    (l.map (fun x => f x - g x)).sum = (l.map f).sum - (l.map g).sum := by
  induction l with
  | nil => simp
  | cons a rest ih =>
    simp only [List.map_cons, List.sum_cons, ih]
    ring

/-- Unrolling the variance accumulation loop from an arbitrary accumulator:
the totals are the starting totals plus the sums over the lines, and the
line items are appended in order. -/
theorem variance_foldl (lookup : List (Nat × Money)) (lines : List BudgetLine)
    (a b : Money) (items : List LineItem) :
    lines.foldl
      (fun acc bl =>
        (acc.1 + bl.amount,
         acc.2.1 + dget lookup bl.account_category_id 0,
         acc.2.2 ++ [bl.toItem]))
      (a, b, items) =
    (a + (lines.map (fun bl => bl.amount)).sum,
     b + (lines.map (fun bl => dget lookup bl.account_category_id 0)).sum,
     items ++ lines.map BudgetLine.toItem) := by
  induction lines generalizing a b items with
  | nil => simp
  | cons bl rest ih =>
    simp only [List.foldl_cons, List.map_cons, List.sum_cons]
    rw [ih]
    simp [add_assoc, List.append_assoc]

/-- The variance fold in closed form. -/
theorem variance_fold_spec (lookup : List (Nat × Money)) (lines : List BudgetLine) :
    variance_fold lookup lines =
      ((lines.map (fun bl => bl.amount)).sum,
       (lines.map (fun bl => dget lookup bl.account_category_id 0)).sum,
       lines.map BudgetLine.toItem) := by
  unfold variance_fold
  rw [variance_foldl]
  simp

/-- Looking a key up after a dict insertion. -/
theorem dget_dinsert (k : Nat) (v : Money) (m : List (Nat × Money)) (c : Nat) (d : Money) :
    dget (dinsert k v m) c d = if c = k then v else dget m c d := by
  induction m with
  | nil =>
    by_cases hck : c = k
    · subst hck
      simp [dinsert, dget, List.find?]
    · have h1 : (k == c) = false := beq_eq_false_iff_ne.mpr (Ne.symm hck)
      simp [dinsert, dget, List.find?, h1, hck]
  | cons kv rest ih =>
    obtain ⟨k₀, v₀⟩ := kv
    by_cases hk : k₀ = k
    · subst hk
      by_cases hck : c = k₀
      · subst hck
        simp [dinsert, dget, List.find?]
      · have h1 : (k₀ == c) = false := beq_eq_false_iff_ne.mpr (Ne.symm hck)
        simp [dinsert, dget, List.find?, h1, hck]
    · by_cases hck : c = k₀
      · subst hck
        simp [dinsert, dget, List.find?, hk]
      · have h1 : (k₀ == c) = false := beq_eq_false_iff_ne.mpr (Ne.symm hck)
        simp only [dinsert, if_neg hk]
        have hrest : dget ((k₀, v₀) :: dinsert k v rest) c d = dget (dinsert k v rest) c d := by
          simp [dget, List.find?, h1]
        have hrest₀ : dget ((k₀, v₀) :: rest) c d = dget rest c d := by
          simp [dget, List.find?, h1]
        rw [hrest, ih, hrest₀]

/-- Folding dict insertions over a list of actuals: the value found for a
category is that of the last matching actual (the first in reverse order),
falling back to the initial dict. -/
theorem dget_build_aux (as : List Actual) (m : List (Nat × Money)) (cid : Nat) (d : Money) :
    dget (as.foldl (fun m a => dinsert a.account_category_id a.amount m) m) cid d =
      match as.reverse.find? (fun a => a.account_category_id == cid) with
      | some a => a.amount
      | none => dget m cid d := by
  induction as generalizing m with
  | nil => simp
  | cons a rest ih =>
    simp only [List.foldl_cons, List.reverse_cons]
    rw [ih, List.find?_append]
    cases hfound : rest.reverse.find? (fun x => x.account_category_id == cid) with
    | some x => simp
    | none =>
      cases hpa : (a.account_category_id == cid) with
      | true =>
        have : cid = a.account_category_id := (eq_of_beq hpa).symm
        simp [List.find?, hpa, dget_dinsert, this]
      | false =>
        have : cid ≠ a.account_category_id := fun hc => by simp [hc] at hpa
        simp [List.find?, hpa, dget_dinsert, this]

/-- The actuals lookup of the variance report maps a category to the amount
of the last fetched actual for that category. -/
theorem dget_build_lookup (actuals : List Actual) (cid : Nat) (d : Money) :
    dget (build_lookup actuals) cid d =
      match actuals.reverse.find? (fun a => a.account_category_id == cid) with
      | some a => a.amount
      | none => d := by
  unfold build_lookup
  rw [dget_build_aux]
  cases actuals.reverse.find? (fun a => a.account_category_id == cid) <;> simp [dget, List.find?]

/-- Filtering by a weaker predicate does not change what a search finds. -/
theorem find?_filter_imp {α : Type} (p q : α → Bool) (l : List α)
    (h : ∀ a, p a = true → q a = true) :
    (l.filter q).find? p = l.find? p := by
  induction l with
  | nil => simp
  | cons a rest ih =>
    cases hq : q a with
    | true =>
      cases hp : p a with
      | true => simp [List.filter, hq, List.find?, hp]
      | false => simp [List.filter, hq, List.find?, hp, ih]
    | false =>
      have hp : p a = false := by
        cases hp : p a with
        | true => exact absurd (h a hp) (by simp [hq])
        | false => rfl
      simp [List.filter, hq, List.find?, hp, ih]

/-- Every successful variance report decomposes into its aggregation
formulas: the totals are the sums over the fetched budget lines, the
variance and percentage are derived, and the line items copy the lines. -/
theorem variance_report_ok (db : DB) (pid perid : Nat) (r : VarianceReport)
    (h : get_variance_report db pid perid = .ok r) :
    r.total_budget = ((fetch_lines db pid perid).map (fun bl => bl.amount)).sum ∧
    r.total_actual = ((fetch_lines db pid perid).map
      (fun bl => dget (build_lookup (fetch_actuals db pid perid))
        bl.account_category_id 0)).sum ∧
    r.total_variance = r.total_actual - r.total_budget ∧
    r.variance_percentage =
      (if r.total_budget ≠ 0 then r.total_variance / r.total_budget * 100 else 0) ∧
    r.line_items = (fetch_lines db pid perid).map BudgetLine.toItem := by
  unfold get_variance_report at h
  cases hp : db.practices.find? (fun p => p.id == pid) with
  | none => rw [hp] at h; exact absurd h (by simp)
  | some practice =>
    rw [hp] at h
    cases hq : db.periods.find? (fun p => p.id == perid) with
    | none => rw [hq] at h; exact absurd h (by simp)
    | some period =>
      rw [hq] at h
      simp only [Except.ok.injEq] at h
      subst h
      rw [variance_fold_spec]
      refine ⟨rfl, rfl, rfl, rfl, rfl⟩

/-- Unrolling the P&L totals loop from an arbitrary accumulator. -/
theorem pl_totals_foldl (groups : List (String × Money)) (a b : Money) :
    groups.foldl
      (fun acc g =>
        if g.1 == "revenue" then (acc.1 + g.2, acc.2)
        else if g.1 == "expense" then (acc.1, acc.2 + g.2)
        else acc)
      (a, b) =
    (a + ((groups.filter (fun g => g.1 == "revenue")).map (fun g => g.2)).sum,
     b + ((groups.filter (fun g => g.1 == "expense")).map (fun g => g.2)).sum) := by
  induction groups generalizing a b with
  | nil => simp
  | cons g rest ih =>
    simp only [List.foldl_cons]
    cases hrev : (g.1 == "revenue") with
    | true =>
      have hexp : (g.1 == "expense") = false := by
        have : g.1 = "revenue" := eq_of_beq hrev
        simp [this]
      simp only [hrev, if_true, ih, List.filter, hexp]
      simp [add_assoc]
    | false =>
      cases hexp : (g.1 == "expense") with
      | true =>
        simp only [hrev, hexp, if_false, if_true, ih, List.filter]
        simp [add_assoc]
      | false =>
        simp only [hrev, hexp, if_false, ih, List.filter]
        simp

/-- The P&L totals in closed form: sums over the revenue-typed and the
expense-typed group entries. -/
theorem pl_totals_spec (groups : List (String × Money)) :
    pl_totals groups =
      (((groups.filter (fun g => g.1 == "revenue")).map (fun g => g.2)).sum,
       ((groups.filter (fun g => g.1 == "expense")).map (fun g => g.2)).sum) := by
  unfold pl_totals
  rw [pl_totals_foldl]
  simp

/-- Grouping preserves the sum of the amounts carrying any fixed key. -/
theorem group_sums_filter_sum {κ : Type} [BEq κ] [LawfulBEq κ]
    (rows : List (κ × Money)) (t : κ) :
    (((group_sums rows).filter (fun g => g.1 == t)).map (fun g => g.2)).sum =
      ((rows.filter (fun g => g.1 == t)).map (fun g => g.2)).sum := by
  induction rows using group_sums.induct with
  | case1 => simp [group_sums]
  | case2 k v rest ih =>
    rw [group_sums]
    cases hkt : (k == t) with
    | true =>
      have hk : k = t := eq_of_beq hkt
      subst hk
      have hzero :
          ((rest.filter (fun r => !(r.1 == k))).filter (fun g => g.1 == k)) = [] := by
        rw [List.filter_filter]
        apply List.filter_eq_nil_iff.mpr
        intro a _
        cases h : (a.1 == k) <;> simp [h]
      simp only [List.filter, hkt, List.map_cons, List.sum_cons, ih, hzero]
      simp
    | false =>
      have hfil :
          (rest.filter (fun r => !(r.1 == k))).filter (fun g => g.1 == t) =
            rest.filter (fun g => g.1 == t) := by
        rw [List.filter_filter]
        apply List.filter_congr
        intro a _
        cases h : (a.1 == t) with
        | true =>
          have : a.1 = t := eq_of_beq h
          have hak : (a.1 == k) = false := by
            subst this
            cases h2 : (a.1 == k) with
            | true => exact absurd (eq_of_beq h2).symm (fun hc => by simp [hc] at hkt)
            | false => rfl
          simp [h, hak]
        | false => simp [h]
      simp only [List.filter, hkt, ih, hfil]

/-- Every successful P&L report decomposes into its aggregation formulas:
total_revenue and total_expenses are the sums of the joined actuals rows
whose category type is "revenue" respectively "expense", and net_income is
their difference. -/
theorem pl_report_ok (db : DB) (pid : Nat) (s e : MDate) (r : PLReport)
    (h : get_pl_report db pid s e = .ok r) :
    r.total_revenue = (((pl_rows db pid (pl_period_ids db s e)).filter
      (fun g => g.1 == "revenue")).map (fun g => g.2)).sum ∧
    r.total_expenses = (((pl_rows db pid (pl_period_ids db s e)).filter
      (fun g => g.1 == "expense")).map (fun g => g.2)).sum ∧
    r.net_income = r.total_revenue - r.total_expenses := by
  unfold get_pl_report at h
  cases hp : db.practices.find? (fun p => p.id == pid) with
  | none => rw [hp] at h; exact absurd h (by simp)
  | some practice =>
    rw [hp] at h
    dsimp only at h
    by_cases hq : (pl_periods db s e).isEmpty
    · rw [if_pos hq] at h; exact absurd h (by simp)
    · rw [if_neg hq] at h
      simp only [Except.ok.injEq] at h
      subst h
      refine ⟨?_, ?_, rfl⟩
      · show (pl_totals (group_sums (pl_rows db pid (pl_period_ids db s e)))).1 = _
        rw [pl_totals_spec]
        exact group_sums_filter_sum _ "revenue"
      · show (pl_totals (group_sums (pl_rows db pid (pl_period_ids db s e)))).2 = _
        rw [pl_totals_spec]
        exact group_sums_filter_sum _ "expense"

/-! The claims. -/

/-- C1: in every variance report produced by get_variance_report, the sum
over all line items of the per-line variance — the actual amount looked up
for the line's category (default 0 when absent) minus the line's budget
amount — equals the reported total_variance, which equals
total_actual - total_budget. -/
theorem claim_C1_variance_totals (db : DB) (pid perid : Nat) (r : VarianceReport)
    (h : get_variance_report db pid perid = .ok r) :
    (r.line_items.map (fun li =>
      dget (build_lookup (fetch_actuals db pid perid)) li.account_category_id 0
        - li.amount)).sum = r.total_variance ∧
    r.total_variance = r.total_actual - r.total_budget := by
  obtain ⟨hb, ha, hv, hpct, hl⟩ := variance_report_ok db pid perid r h
  refine ⟨?_, hv⟩
  rw [hl, hv, ha, hb, List.map_map]
  have hcomp :
      ((fun li : LineItem =>
          dget (build_lookup (fetch_actuals db pid perid)) li.account_category_id 0
            - li.amount) ∘ BudgetLine.toItem) =
        fun bl : BudgetLine =>
          dget (build_lookup (fetch_actuals db pid perid)) bl.account_category_id 0
            - bl.amount := rfl
  rw [hcomp, sum_map_sub]

/-- C1 witness: the spec's worked scenario (budget 50000.00, actual
48500.00) instantiates the totals identity. -/
theorem claim_C1_variance_totals_witness :
    get_variance_report sampleDB 1 1 = .ok sampleReport ∧
    ((sampleReport.line_items.map (fun li =>
      dget (build_lookup (fetch_actuals sampleDB 1 1)) li.account_category_id 0
        - li.amount)).sum = sampleReport.total_variance ∧
    sampleReport.total_variance = sampleReport.total_actual - sampleReport.total_budget) := by
  have hok : get_variance_report sampleDB 1 1 = .ok sampleReport := by
    simp [get_variance_report, sampleDB, samplePractice, samplePeriod, sampleReport,
      fetch_lines, fetch_actuals, variance_fold, build_lookup, dinsert, dget,
      BudgetLine.toItem, List.find?, List.filter, List.foldl]
    norm_num
  exact ⟨hok, claim_C1_variance_totals sampleDB 1 1 sampleReport hok⟩

/-- C2: in every variance report, variance_percentage equals
total_variance / total_budget * 100 when total_budget is nonzero, and is
exactly 0 when total_budget is 0 (the guarded else-branch), regardless of
total_actual. -/
theorem claim_C2_variance_percentage (db : DB) (pid perid : Nat) (r : VarianceReport)
    (h : get_variance_report db pid perid = .ok r) :
    (r.total_budget ≠ 0 →
      r.variance_percentage = r.total_variance / r.total_budget * 100) ∧
    (r.total_budget = 0 → r.variance_percentage = 0) := by
  obtain ⟨hb, ha, hv, hpct, hl⟩ := variance_report_ok db pid perid r h
  constructor
  · intro h0
    rw [hpct, if_pos h0]
  · intro h0
    rw [hpct, if_neg (by simp [h0])]

/-- C2 witness: the worked scenario has total_budget 50000 and percentage
-1500 / 50000 * 100 = -3. -/
theorem claim_C2_variance_percentage_witness :
    get_variance_report sampleDB 1 1 = .ok sampleReport ∧
    ((sampleReport.total_budget ≠ 0 →
      sampleReport.variance_percentage =
        sampleReport.total_variance / sampleReport.total_budget * 100) ∧
    (sampleReport.total_budget = 0 → sampleReport.variance_percentage = 0)) := by
  have hok : get_variance_report sampleDB 1 1 = .ok sampleReport := by
    simp [get_variance_report, sampleDB, samplePractice, samplePeriod, sampleReport,
      fetch_lines, fetch_actuals, variance_fold, build_lookup, dinsert, dget,
      BudgetLine.toItem, List.find?, List.filter, List.foldl]
    norm_num
  exact ⟨hok, claim_C2_variance_percentage sampleDB 1 1 sampleReport hok⟩

/-- C3: the seeding path violates the variance invariant. The budget line
constructed by seed_sample_budget_data stores budget_amount 10000.00 and
actual_amount 9500.00 but a hard-coded variance of 500.00, while
actual - budget is -500.00; create_budget_line on the same amounts stores
the correct -500.00, confirming the seed value is the slip. -/
theorem claim_C3_seed_variance_bug :
    (seed_budget_line 1 1 1).budget_amount = 10000 ∧
    (seed_budget_line 1 1 1).actual_amount = 9500 ∧
    (seed_budget_line 1 1 1).variance = 500 ∧
    (seed_budget_line 1 1 1).actual_amount - (seed_budget_line 1 1 1).budget_amount
      = -500 ∧
    (seed_budget_line 1 1 1).variance ≠
      (seed_budget_line 1 1 1).actual_amount - (seed_budget_line 1 1 1).budget_amount ∧
    (create_budget_line ⟨1, 1, 1, 1, 10000, 9500, none⟩).variance = -500 := by
  refine ⟨rfl, rfl, rfl, ?_, ?_, ?_⟩
  · norm_num [seed_budget_line]
  · norm_num [seed_budget_line]
  · norm_num [create_budget_line]

/-- C4: in every P&L report, net_income = total_revenue - total_expenses,
where total_revenue sums exactly the joined actuals rows whose category
type is "revenue" and total_expenses exactly those whose type is
"expense"; rows of any other type, in particular "metric", contribute to
neither sum. -/
theorem claim_C4_pl_net_income (db : DB) (pid : Nat) (s e : MDate) (r : PLReport)
    (h : get_pl_report db pid s e = .ok r) :
    r.net_income = r.total_revenue - r.total_expenses ∧
    r.total_revenue = (((pl_rows db pid (pl_period_ids db s e)).filter
      (fun g => g.1 == "revenue")).map (fun g => g.2)).sum ∧
    r.total_expenses = (((pl_rows db pid (pl_period_ids db s e)).filter
      (fun g => g.1 == "expense")).map (fun g => g.2)).sum := by
  obtain ⟨hrev, hexp, hnet⟩ := pl_report_ok db pid s e r h
  exact ⟨hnet, hrev, hexp⟩

/-- C4 witness: the scenario store over 2026 yields revenue 48500, expenses
0, net income 48500. -/
theorem claim_C4_pl_net_income_witness :
    get_pl_report sampleDB 1 ⟨2026, 1, 1⟩ ⟨2026, 12, 31⟩ = .ok samplePL ∧
    (samplePL.net_income = samplePL.total_revenue - samplePL.total_expenses ∧
    samplePL.total_revenue =
      (((pl_rows sampleDB 1 (pl_period_ids sampleDB ⟨2026, 1, 1⟩ ⟨2026, 12, 31⟩)).filter
        (fun g => g.1 == "revenue")).map (fun g => g.2)).sum ∧
    samplePL.total_expenses =
      (((pl_rows sampleDB 1 (pl_period_ids sampleDB ⟨2026, 1, 1⟩ ⟨2026, 12, 31⟩)).filter
        (fun g => g.1 == "expense")).map (fun g => g.2)).sum) := by
  have hok : get_pl_report sampleDB 1 ⟨2026, 1, 1⟩ ⟨2026, 12, 31⟩ = .ok samplePL := by
    simp [get_pl_report, sampleDB, samplePractice, samplePeriod, samplePL,
      pl_periods, pl_period_ids, pl_rows, pl_cat_rows, pl_totals, group_sums,
      MDate.le, List.find?, List.filter, List.filterMap, List.foldl]
  exact ⟨hok, claim_C4_pl_net_income sampleDB 1 ⟨2026, 1, 1⟩ ⟨2026, 12, 31⟩ samplePL hok⟩

/-- C5: a variance report for an absent practice id fails 404 before any
budget line or actual is read — the same error results for every content of
the budget-line and actuals tables — and no report is returned; likewise
when the practice exists but the budget-period id is absent. -/
theorem claim_C5_variance_not_found (db : DB) (pid perid : Nat) :
    (db.practices.find? (fun p => p.id == pid) = none →
      ∀ (ls : List BudgetLine) (acts : List Actual),
        get_variance_report { db with budget_lines := ls, actuals := acts } pid perid =
          .error ⟨404, "Practice with id " ++ toString pid ++ " not found"⟩) ∧
    (∀ practice, db.practices.find? (fun p => p.id == pid) = some practice →
      db.periods.find? (fun p => p.id == perid) = none →
      ∀ (ls : List BudgetLine) (acts : List Actual),
        get_variance_report { db with budget_lines := ls, actuals := acts } pid perid =
          .error ⟨404, "Budget period with id " ++ toString perid ++ " not found"⟩) := by
  constructor
  · intro hp ls acts
    unfold get_variance_report
    dsimp only
    rw [hp]
  · intro practice hp hq ls acts
    unfold get_variance_report
    dsimp only
    rw [hp]
    dsimp only
    rw [hq]

/-- C5 witness: looking up practice 99 in the scenario store fails, and so
does the report for it; period 99 likewise with practice 1 present. -/
theorem claim_C5_variance_not_found_witness :
    (sampleDB.practices.find? (fun p => p.id == 99) = none →
      ∀ (ls : List BudgetLine) (acts : List Actual),
        get_variance_report { sampleDB with budget_lines := ls, actuals := acts } 99 1 =
          .error ⟨404, "Practice with id " ++ toString 99 ++ " not found"⟩) ∧
    (∀ practice, sampleDB.practices.find? (fun p => p.id == 99) = some practice →
      sampleDB.periods.find? (fun p => p.id == 1) = none →
      ∀ (ls : List BudgetLine) (acts : List Actual),
        get_variance_report { sampleDB with budget_lines := ls, actuals := acts } 99 1 =
          .error ⟨404, "Budget period with id " ++ toString 1 ++ " not found"⟩) :=
  claim_C5_variance_not_found sampleDB 99 1

/-- C6: a P&L request whose date range matches no budget period fails 404
with a detail message naming the requested start and end dates, and no
report is produced. -/
theorem claim_C6_pl_no_periods (db : DB) (pid : Nat) (s e : MDate) (practice : Practice)
    (hp : db.practices.find? (fun p => p.id == pid) = some practice)
    (hq : pl_periods db s e = []) :
    get_pl_report db pid s e =
      .error ⟨404, "No budget periods found between " ++ s.iso ++ " and " ++ e.iso⟩ := by
  unfold get_pl_report
  rw [hp]
  dsimp only
  rw [hq]
  rfl

/-- C6 witness: the scenario store holds only a January 2026 period, so a
2027 range matches none and the 404 names 2027-01-01 and 2027-02-01. -/
theorem claim_C6_pl_no_periods_witness :
    sampleDB.practices.find? (fun p => p.id == 1) = some samplePractice ∧
    pl_periods sampleDB ⟨2027, 1, 1⟩ ⟨2027, 2, 1⟩ = [] ∧
    get_pl_report sampleDB 1 ⟨2027, 1, 1⟩ ⟨2027, 2, 1⟩ =
      .error ⟨404, "No budget periods found between " ++ MDate.iso ⟨2027, 1, 1⟩ ++
        " and " ++ MDate.iso ⟨2027, 2, 1⟩⟩ := by
  refine ⟨rfl, ?_, ?_⟩
  · simp [pl_periods, sampleDB, samplePeriod, MDate.le, List.filter]
  · exact claim_C6_pl_no_periods sampleDB 1 ⟨2027, 1, 1⟩ ⟨2027, 2, 1⟩ samplePractice rfl
      (by simp [pl_periods, sampleDB, samplePeriod, MDate.le, List.filter])

/-- Creating a practice whose name is already present fails with the 400
conflict and leaves the store unchanged. -/
theorem create_practice_dup (st : List Practice) (req : PracticeCreate) (x : Practice)
    (hf : st.find? (fun p => p.name == req.name) = some x) :
    create_practice st req =
      (.error ⟨400, "Practice with name \x27" ++ req.name ++ "\x27 already exists"⟩, st) := by
  unfold create_practice
  rw [hf]

/-- C7: issuing the same create-practice request twice on a store without
that name yields the conflict error the second time, leaves the store
unchanged by the second call, and the store contains exactly one practice
with that name. -/
theorem claim_C7_create_practice_idempotent (store : List Practice) (req : PracticeCreate)
    (h : store.find? (fun p => p.name == req.name) = none) :
    (create_practice (create_practice store req).2 req).1 =
      .error ⟨400, "Practice with name \x27" ++ req.name ++ "\x27 already exists"⟩ ∧
    (create_practice (create_practice store req).2 req).2 = (create_practice store req).2 ∧
    ((create_practice (create_practice store req).2 req).2.filter
      (fun p => p.name == req.name)).length = 1 := by
  have h2 : (create_practice store req).2 =
      store ++ [⟨store.length + 1, req.name, req.location, req.status⟩] := by
    unfold create_practice
    rw [h]
  have hfind : ((create_practice store req).2).find? (fun p => p.name == req.name) =
      some ⟨store.length + 1, req.name, req.location, req.status⟩ := by
    rw [h2, List.find?_append, h]
    simp [List.find?]
  have hsecond := create_practice_dup _ req _ hfind
  refine ⟨by rw [hsecond], by rw [hsecond], ?_⟩
  rw [hsecond, h2, List.filter_append]
  rw [List.filter_eq_nil_iff.mpr (List.find?_eq_none.mp h)]
  simp [List.filter]

/-- C7 witness: creating "Red Oak PC" twice starting from the empty store. -/
theorem claim_C7_create_practice_idempotent_witness :
    ([] : List Practice).find? (fun p => p.name == sampleReq.name) = none ∧
    ((create_practice (create_practice [] sampleReq).2 sampleReq).1 =
      .error ⟨400, "Practice with name \x27" ++ sampleReq.name ++ "\x27 already exists"⟩ ∧
    (create_practice (create_practice [] sampleReq).2 sampleReq).2 =
      (create_practice [] sampleReq).2 ∧
    ((create_practice (create_practice [] sampleReq).2 sampleReq).2.filter
      (fun p => p.name == sampleReq.name)).length = 1) :=
  ⟨rfl, claim_C7_create_practice_idempotent [] sampleReq rfl⟩

/-- C8: listing practices with limit 1 and offset 1 returns exactly the
second stored practice whenever at least two exist; an offset at or past
the store size returns the empty collection; and the route defaults are
offset 0 and limit 100. -/
theorem claim_C8_practice_pagination (store : List Practice) (skip limit : Nat) :
    (2 ≤ store.length → ∃ p, store[1]? = some p ∧ get_practices store 1 1 = [p]) ∧
    (store.length ≤ skip → get_practices store skip limit = []) ∧
    get_practices store default_skip default_limit = store.take 100 ∧
    default_skip = 0 ∧ default_limit = 100 := by
  refine ⟨?_, ?_, ?_, rfl, rfl⟩
  · intro h2
    cases store with
    | nil => simp at h2
    | cons a t =>
      cases t with
      | nil => simp at h2
      | cons b rest => exact ⟨b, by simp, rfl⟩
  · intro hs
    unfold get_practices
    rw [List.drop_eq_nil_of_le hs]
    simp
  · unfold get_practices default_skip default_limit
    simp

/-- C9: the actuals lookup used for every variance line keeps, for each
category id, the amount of the last fetched row with that category
(the first row of the reversed fetch order), discarding earlier amounts. -/
theorem claim_C9_actuals_lookup_last_write_wins (actuals : List Actual) (cid : Nat)
    (d : Money) :
    dget (build_lookup actuals) cid d =
      ((actuals.reverse.find? (fun a => a.account_category_id == cid)).map
        (fun a => a.amount)).getD d := by
  rw [dget_build_lookup]
  cases actuals.reverse.find? (fun a => a.account_category_id == cid) <;> simp

/-- C10: in every variance report, total_actual sums only actuals whose
category id matches some fetched budget line — discarding every other
actual changes nothing — and a report with zero budget lines has all
totals 0, percentage 0 and no line items even when actuals exist. -/
theorem claim_C10_actuals_scope (db : DB) (pid perid : Nat) (r : VarianceReport)
    (h : get_variance_report db pid perid = .ok r) :
    r.total_actual =
      ((fetch_lines db pid perid).map (fun bl =>
        dget (build_lookup ((fetch_actuals db pid perid).filter
          (fun a => (fetch_lines db pid perid).any
            (fun bl₂ => bl₂.account_category_id == a.account_category_id))))
          bl.account_category_id 0)).sum ∧
    (fetch_lines db pid perid = [] →
      r.total_budget = 0 ∧ r.total_actual = 0 ∧ r.total_variance = 0 ∧
      r.variance_percentage = 0 ∧ r.line_items = []) := by
  obtain ⟨hb, ha, hv, hpct, hl⟩ := variance_report_ok db pid perid r h
  constructor
  · rw [ha]
    apply congrArg List.sum
    apply List.map_congr_left
    intro bl hbl
    rw [dget_build_lookup, dget_build_lookup]
    have hfind :
        ((fetch_actuals db pid perid).filter
          (fun a => (fetch_lines db pid perid).any
            (fun bl₂ => bl₂.account_category_id == a.account_category_id))).reverse.find?
          (fun a => a.account_category_id == bl.account_category_id) =
        (fetch_actuals db pid perid).reverse.find?
          (fun a => a.account_category_id == bl.account_category_id) := by
      rw [← List.filter_reverse]
      apply find?_filter_imp
      intro a hpa
      apply List.any_eq_true.mpr
      refine ⟨bl, hbl, ?_⟩
      rw [(eq_of_beq hpa : a.account_category_id = bl.account_category_id)]
      simp
    rw [hfind]
  · intro hnil
    refine ⟨by simp [hb, hnil], by simp [ha, hnil], ?_, ?_, by simp [hl, hnil]⟩
    · rw [hv]
      simp [hb, ha, hnil]
    · rw [hpct, if_neg (by simp [hb, hnil])]

/-- C10 witness: a store with an actual of 48500.00 but no budget line
yields the all-zero, empty-line-items report. -/
theorem claim_C10_actuals_scope_witness :
    get_variance_report emptyLinesDB 1 1 = .ok emptyReport ∧
    (emptyReport.total_actual =
      ((fetch_lines emptyLinesDB 1 1).map (fun bl =>
        dget (build_lookup ((fetch_actuals emptyLinesDB 1 1).filter
          (fun a => (fetch_lines emptyLinesDB 1 1).any
            (fun bl₂ => bl₂.account_category_id == a.account_category_id))))
          bl.account_category_id 0)).sum ∧
    (fetch_lines emptyLinesDB 1 1 = [] →
      emptyReport.total_budget = 0 ∧ emptyReport.total_actual = 0 ∧
      emptyReport.total_variance = 0 ∧ emptyReport.variance_percentage = 0 ∧
      emptyReport.line_items = [])) := by
  have hok : get_variance_report emptyLinesDB 1 1 = .ok emptyReport := by
    simp [get_variance_report, emptyLinesDB, samplePractice, samplePeriod, emptyReport,
      fetch_lines, fetch_actuals, variance_fold, build_lookup, dinsert, dget,
      List.find?, List.filter, List.foldl]
  exact ⟨hok, claim_C10_actuals_scope emptyLinesDB 1 1 emptyReport hok⟩

end DentalBudget
